import Mathlib

/-!
# soypat/shaders: shader compilation helper and the example-005 resource wrappers

A shallow embedding of `shaders.go` (`CompileBasic`, `compile`, `ivLog`) and of
`examples/005-abstraction/abstractions.go` / `examples/004-uniforms/main.go`
(`AddAttribute`, `BindFrag`, `SetUniformName4f`, `glCheckError`, `GLErrors.Error`).

The OpenGL driver is outside the repository.  It is modelled as an arbitrary
deterministic transition function on an abstract driver state; every call that
the Go code issues is also appended to a trace, so that statements such as
"`LinkProgram` is never called" can be expressed.

* `uint32` values are `Nat`, `int32` / `int` values are `Int`;
  conversions that can wrap are written with an explicit modulus.
* A Go `string` is a sequence of bytes: `List UInt8`.
* A Go run-time panic is the result `none`.
* The unbounded `for` loop of `glCheckError` takes a fuel argument; `none` means that the
  loop is still running when the fuel is used up.
-/

/-- A Go string: an immutable sequence of bytes. -/
abbrev GoString := List UInt8

/-- The bytes of an ASCII string literal of the source. -/
def str (s : String) : GoString := s.toList.map (fun c => UInt8.ofNat c.toNat)

/-- A `float32` value, carried around as its IEEE-754 bit pattern; the code only passes it on. -/
abbrev float32 := Nat

/-- Go conversion `uint32(x)` of a signed integer: wraps modulo `2^32`. -/
def uint32 (x : Int) : Nat := (x % 4294967296).toNat

/-- Go conversion `int32(x)` of a signed integer: wraps into `[-2^31, 2^31)`. -/
def int32 (x : Int) : Int := (x + 2147483648) % 4294967296 - 2147483648

/-- Go `strings.HasSuffix`. -/
def strings.HasSuffix (s suffix : GoString) : Bool :=
  decide (suffix.length ≤ s.length) && (s.drop (s.length - suffix.length) == suffix)

/-! ## Constants of `github.com/go-gl/gl/v4.6-core/gl` used by the code -/
namespace gl

def FALSE : Int := 0
def TRUE : Int := 1
def NO_ERROR : Nat := 0
def INVALID_ENUM : Nat := 0x0500
def INVALID_VALUE : Nat := 0x0501
def INVALID_OPERATION : Nat := 0x0502
def INVALID_FRAMEBUFFER_OPERATION : Nat := 0x0506
def INVALID_INDEX : Nat := 0xFFFFFFFF
def BYTE : Nat := 0x1400
def UNSIGNED_BYTE : Nat := 0x1401
def UNSIGNED_INT : Nat := 0x1405
def FLOAT : Nat := 0x1406
def ARRAY_BUFFER : Nat := 0x8892
def FRAGMENT_SHADER : Nat := 0x8B30
def VERTEX_SHADER : Nat := 0x8B31
def COMPILE_STATUS : Nat := 0x8B81
def LINK_STATUS : Nat := 0x8B82
def VALIDATE_STATUS : Nat := 0x8B83
def INFO_LOG_LENGTH : Nat := 0x8B84

end gl

/-! ## The driver -/

/-- The calls that the code issues to the outside world (OpenGL, GLFW, slog), with their
input arguments. -/
inductive Call where
  | CreateProgram
  | CreateShader (xtype : Nat)
  /-- The call `gl.ShaderSource(id, 1, csources, nil)` where `csources` holds the one string `source`. -/
  | ShaderSource (shader : Nat) (source : GoString)
  | CompileShader (shader : Nat)
  | GetShaderiv (shader pname : Nat)
  | GetShaderInfoLog (shader : Nat) (bufSize : Int)
  | AttachShader (program shader : Nat)
  | LinkProgram (program : Nat)
  | GetProgramiv (program pname : Nat)
  | GetProgramInfoLog (program : Nat) (bufSize : Int)
  | ValidateProgram (program : Nat)
  | DeleteShader (shader : Nat)
  | BindBuffer (target buffer : Nat)
  | GetAttribLocation (program : Nat) (name : GoString)
  | EnableVertexAttribArray (index : Nat)
  | VertexAttribPointerWithOffset (index : Nat) (size : Int) (xtype : Nat) (normalized : Bool)
      (stride : Int) (offset : Nat)
  | GetError
  | BindFragDataLocation (program color : Nat) (name : GoString)
  | GetUniformLocation (program : Nat) (name : GoString)
  | Uniform4f (location : Int) (v0 v1 v2 v3 : float32)
  /-- The call `glfw.GetCurrentContext()`. -/
  | GetCurrentContext
  /-- The call `slog.Error(msg, errs)` with `errs` a `GLErrors` value. -/
  | slogError (msg : GoString) (errs : List Nat)
  deriving DecidableEq, Repr

/-- What a call hands back to the Go code: a `uint32`, an `int32` (written through the
`params` pointer or returned), for the info-log getters the `length` that is written back
together with the bytes the driver stores into the buffer, for `glfw.GetCurrentContext`
whether the returned window is non-nil. -/
def Call.Ret : Call → Type
  | .CreateProgram => Nat
  | .CreateShader _ => Nat
  | .GetError => Nat
  | .GetShaderiv _ _ => Int
  | .GetProgramiv _ _ => Int
  | .GetAttribLocation _ _ => Int
  | .GetUniformLocation _ _ => Int
  | .GetShaderInfoLog _ _ => Int × List UInt8
  | .GetProgramInfoLog _ _ => Int × List UInt8
  | .GetCurrentContext => Bool
  | _ => Unit

/-- A driver: any deterministic reaction to calls, over a state type `σ` of its own. -/
abbrev Driver (σ : Type) := (c : Call) → σ → c.Ret × σ

/-- The world the Go code runs in: the driver state and the trace of the calls issued so far. -/
structure World (σ : Type) where
  drv : σ
  calls : List Call

/-- Issue the call `c`: the driver reacts, the call is recorded. -/
def World.call {σ : Type} (d : Driver σ) (c : Call) (w : World σ) : c.Ret × World σ :=
  ((d c w.drv).1, { drv := (d c w.drv).2, calls := w.calls ++ [c] })

/-- The binding `gl.CreateProgram()`. -/
def gl.CreateProgram {σ : Type} (d : Driver σ) (w : World σ) : Nat × World σ :=
  w.call d .CreateProgram

/-- The binding `gl.CreateShader(xtype)`. -/
def gl.CreateShader {σ : Type} (d : Driver σ) (xtype : Nat) (w : World σ) : Nat × World σ :=
  w.call d (.CreateShader xtype)

/-- The calls `csources, free := gl.Strs(source)`, `gl.ShaderSource(shader, 1, csources, nil)`
and `free()`: the driver is handed the one string `source`. -/
def gl.ShaderSource {σ : Type} (d : Driver σ) (shader : Nat) (source : GoString)
    (w : World σ) : World σ :=
  (w.call d (.ShaderSource shader source)).2

/-- The binding `gl.CompileShader(shader)`. -/
def gl.CompileShader {σ : Type} (d : Driver σ) (shader : Nat) (w : World σ) : World σ :=
  (w.call d (.CompileShader shader)).2

/-- The binding `gl.AttachShader(program, shader)`. -/
def gl.AttachShader {σ : Type} (d : Driver σ) (program shader : Nat) (w : World σ) : World σ :=
  (w.call d (.AttachShader program shader)).2

/-- The binding `gl.LinkProgram(program)`. -/
def gl.LinkProgram {σ : Type} (d : Driver σ) (program : Nat) (w : World σ) : World σ :=
  (w.call d (.LinkProgram program)).2

/-- The binding `gl.ValidateProgram(program)`. -/
def gl.ValidateProgram {σ : Type} (d : Driver σ) (program : Nat) (w : World σ) : World σ :=
  (w.call d (.ValidateProgram program)).2

/-- The binding `gl.DeleteShader(shader)`. -/
def gl.DeleteShader {σ : Type} (d : Driver σ) (shader : Nat) (w : World σ) : World σ :=
  (w.call d (.DeleteShader shader)).2

/-- The binding `gl.BindBuffer(target, buffer)`. -/
def gl.BindBuffer {σ : Type} (d : Driver σ) (target buffer : Nat) (w : World σ) : World σ :=
  (w.call d (.BindBuffer target buffer)).2

/-- The call `gl.GetAttribLocation(program, gl.Str(name))`. -/
def gl.GetAttribLocation {σ : Type} (d : Driver σ) (program : Nat) (name : GoString)
    (w : World σ) : Int × World σ :=
  w.call d (.GetAttribLocation program name)

/-- The binding `gl.EnableVertexAttribArray(index)`. -/
def gl.EnableVertexAttribArray {σ : Type} (d : Driver σ) (index : Nat) (w : World σ) :
    World σ :=
  (w.call d (.EnableVertexAttribArray index)).2

/-- The binding `gl.VertexAttribPointerWithOffset(index, size, xtype, normalized, stride,
offset)`. -/
def gl.VertexAttribPointerWithOffset {σ : Type} (d : Driver σ) (index : Nat) (size : Int)
    (xtype : Nat) (normalized : Bool) (stride : Int) (offset : Nat) (w : World σ) : World σ :=
  (w.call d (.VertexAttribPointerWithOffset index size xtype normalized stride offset)).2

/-- The binding `gl.GetError()`. -/
def gl.GetError {σ : Type} (d : Driver σ) (w : World σ) : Nat × World σ :=
  w.call d .GetError

/-- The call `gl.BindFragDataLocation(program, color, gl.Str(name))`. -/
def gl.BindFragDataLocation {σ : Type} (d : Driver σ) (program color : Nat) (name : GoString)
    (w : World σ) : World σ :=
  (w.call d (.BindFragDataLocation program color name)).2

/-- The call `gl.GetUniformLocation(program, gl.Str(name))`. -/
def gl.GetUniformLocation {σ : Type} (d : Driver σ) (program : Nat) (name : GoString)
    (w : World σ) : Int × World σ :=
  w.call d (.GetUniformLocation program name)

/-- The binding `gl.Uniform4f(location, v0, v1, v2, v3)`. -/
def gl.Uniform4f {σ : Type} (d : Driver σ) (location : Int) (v0 v1 v2 v3 : float32)
    (w : World σ) : World σ :=
  (w.call d (.Uniform4f location v0 v1 v2 v3)).2

/-- The test `glfw.GetCurrentContext() != nil`. -/
def glfw.GetCurrentContext {σ : Type} (d : Driver σ) (w : World σ) : Bool × World σ :=
  w.call d .GetCurrentContext

/-- The call `slog.Error(msg, errs)`. -/
def slog.Error {σ : Type} (d : Driver σ) (msg : GoString) (errs : List Nat) (w : World σ) :
    World σ :=
  (w.call d (.slogError msg errs)).2

/-- The binding `gl.GetShaderiv(shader, pname, &params)`: the value stored in `params`. -/
def gl.GetShaderiv {σ : Type} (d : Driver σ) (shader pname : Nat) (w : World σ) :
    Int × World σ :=
  w.call d (.GetShaderiv shader pname)

/-- The binding `gl.GetShaderInfoLog(shader, bufSize, &length, &infoLog[0])`: the value
stored in `length` and the bytes stored into the buffer. -/
def gl.GetShaderInfoLog {σ : Type} (d : Driver σ) (shader : Nat) (bufSize : Int)
    (w : World σ) : (Int × List UInt8) × World σ :=
  w.call d (.GetShaderInfoLog shader bufSize)

/-- The binding `gl.GetProgramiv(program, pname, &params)`: the value stored in `params`. -/
def gl.GetProgramiv {σ : Type} (d : Driver σ) (program pname : Nat) (w : World σ) :
    Int × World σ :=
  w.call d (.GetProgramiv program pname)

/-- The binding `gl.GetProgramInfoLog(program, bufSize, &length, &infoLog[0])`: the value
stored in `length` and the bytes stored into the buffer. -/
def gl.GetProgramInfoLog {σ : Type} (d : Driver σ) (program : Nat) (bufSize : Int)
    (w : World σ) : (Int × List UInt8) × World σ :=
  w.call d (.GetProgramInfoLog program bufSize)

/-- The content of a Go byte buffer `buf` after a C function stored `data` at its start;
nothing is stored past the end of the buffer and its length does not change. -/
def writeBuf (buf data : List UInt8) : List UInt8 :=
  (data ++ buf.drop data.length).take buf.length

/-! ## Package `shaders` (`shaders.go`) -/
namespace shaders

/-- The error values the package builds: `errors.New(s)` / `fmt.Errorf` without `%w`
(an error with message `s`), and `fmt.Errorf` with `%w` (message and wrapped error). -/
inductive error where
  | errorString (s : GoString)
  | wrapError (msg : GoString) (err : error)
  deriving DecidableEq, Repr

/-- The method `Error()`: the message. -/
def error.Error : error → GoString
  | .errorString s => s
  | .wrapError msg _ => msg

/-- The function `ivLog`.  `getIV` and `getInfo` are the two function arguments, acting on
a world `W`; `getInfo id bufSize` returns the written-back `length` and the bytes stored
into the buffer.  `make([]byte, logLength)` panics for a negative length and `&log[0]`
for an empty slice. -/
def ivLog {W : Type} (id plName : Nat) (getIV : Nat → Nat → W → Int × W)
    (getInfo : Nat → Int → W → (Int × List UInt8) × W) (w : W) : Option GoString × W :=
  let r := getIV id plName w
  let iv := r.1
  let w := r.2
  if iv = gl.FALSE then
    let r := getIV id gl.INFO_LOG_LENGTH w
    let logLength := r.1
    let w := r.2
    if logLength < 0 then (none, w) else
    let log := List.replicate logLength.toNat (0 : UInt8)
    if log.length = 0 then (none, w) else
    let r := getInfo id logLength w
    let w := r.2
    let log := writeBuf log r.1.2
    (some (log.take (log.length - 1)), w)
  else
    (some [], w)

/-- The function `compile`; `none` is a panic inside `ivLog`. -/
def compile {σ : Type} (d : Driver σ) (shaderType : Nat) (sourceCode : GoString)
    (w : World σ) : Option (Nat × Option error) × World σ :=
  let r := gl.CreateShader d shaderType w
  let id := r.1
  let w := r.2
  let w := gl.ShaderSource d id sourceCode w
  let w := gl.CompileShader d id w
  let r := ivLog id gl.COMPILE_STATUS (gl.GetShaderiv d) (gl.GetShaderInfoLog d) w
  match r.1 with
  | none => (none, r.2)
  | some log =>
    if log.length > 0 then (some (0, some (.errorString log)), r.2)
    else (some (id, none), r.2)

/-- The function `CompileBasic`; `none` is a panic inside `ivLog`. -/
def CompileBasic {σ : Type} (d : Driver σ) (vertexSrcCode fragmentSrcCode : GoString)
    (w : World σ) : Option (Nat × Option error) × World σ :=
  let r := gl.CreateProgram d w
  let program := r.1
  let w := r.2
  let r := compile d gl.VERTEX_SHADER vertexSrcCode w
  match r.1 with
  | none => (none, r.2)
  | some (_, some err) =>
    (some (0, some (.wrapError (str "vertex shader compile: " ++ err.Error) err)), r.2)
  | some (vid, none) =>
  let w := r.2
  let r := compile d gl.FRAGMENT_SHADER fragmentSrcCode w
  match r.1 with
  | none => (none, r.2)
  | some (_, some err) =>
    (some (0, some (.wrapError (str "fragment shader compile: " ++ err.Error) err)), r.2)
  | some (fid, none) =>
  let w := r.2
  let w := gl.AttachShader d program vid w
  let w := gl.AttachShader d program fid w
  let w := gl.LinkProgram d program w
  let r := ivLog program gl.LINK_STATUS (gl.GetProgramiv d) (gl.GetProgramInfoLog d) w
  match r.1 with
  | none => (none, r.2)
  | some log =>
  if log.length > 0 then (some (0, some (.errorString (str "link failed: " ++ log))), r.2) else
  let w := r.2
  let w := gl.ValidateProgram d program w
  let r := ivLog program gl.VALIDATE_STATUS (gl.GetProgramiv d) (gl.GetProgramInfoLog d) w
  match r.1 with
  | none => (none, r.2)
  | some log =>
  if log.length > 0 then
    (some (0, some (.errorString (str "validation failed: " ++ log))), r.2) else
  let w := r.2
  let w := gl.DeleteShader d vid w
  let w := gl.DeleteShader d fid w
  (some (program, none), w)

end shaders

/-! ## The example programs (`examples/004-uniforms`, `examples/005-abstraction`) -/

/-- The error values the example programs build: `errors.New(s)` and a `GLErrors` slice. -/
inductive ExError where
  | errorString (s : GoString)
  | GLErrors (ge : List Nat)
  deriving DecidableEq, Repr

namespace Example004

/-- The loop `for i := range ge` of `GLErrors.Error`, started at index `i` with the elements
`ge[i:]` still to visit; `n` is `len(ge)` and `errstr` the string built so far. -/
def GLErrors.Error.loop (n : Nat) : Nat → List Nat → GoString → GoString
  | _, [], errstr => errstr
  | i, code :: rest, errstr =>
    let s : GoString :=
      if code = gl.INVALID_ENUM then str "invalid enum"
      else if code = gl.INVALID_FRAMEBUFFER_OPERATION then str "invalid framebuffer operation"
      else if code = gl.INVALID_INDEX then str "invalid index"
      else if code = gl.INVALID_OPERATION then str "invalid operation"
      else if code = gl.INVALID_VALUE then str "invalid value"
      else str "unknown error enum"
    let errstr := errstr ++ s
    let errstr := if i ≠ n - 1 then errstr ++ str "; " else errstr
    GLErrors.Error.loop n (i + 1) rest errstr

/-- The method `GLErrors.Error` of `examples/004-uniforms/main.go`. -/
def GLErrors.Error (ge : List Nat) : GoString :=
  if ge.length = 0 then str "no gl errors"
  else GLErrors.Error.loop ge.length 0 ge []

/-- The `for` loop of `glCheckError`; `none` when it is still running after `fuel` rounds. -/
def glCheckError.loop {σ : Type} (d : Driver σ) :
    Nat → List Nat → World σ → Option (Option ExError × World σ)
  | 0, _, _ => none
  | fuel + 1, errs, w =>
    let r := gl.GetError d w
    let code := r.1
    if code = gl.NO_ERROR then some (some (.GLErrors errs), r.2)
    else glCheckError.loop d fuel (errs ++ [code]) r.2

/-- The function `glCheckError` of `examples/004-uniforms/main.go`. -/
def glCheckError {σ : Type} (d : Driver σ) (fuel : Nat) (w : World σ) :
    Option (Option ExError × World σ) :=
  let r := gl.GetError d w
  let code := r.1
  if code = gl.NO_ERROR then some (none, r.2)
  else glCheckError.loop d fuel [code] r.2

end Example004

namespace Example005

/-- The package variable `ErrStringNotNullTerminated`. -/
def ErrStringNotNullTerminated : ExError := .errorString (str "string not null terminated")

structure Program where
  rid : Nat
  deriving DecidableEq, Repr

structure VertexArray where
  rid : Nat
  deriving DecidableEq, Repr

structure VertexBuffer where
  rid : Nat
  deriving DecidableEq, Repr

/-- The struct `AttribLayout`; a Go `int` field is an `Int`. -/
structure AttribLayout where
  Program : Program
  Type' : Nat
  Name : GoString
  Packing : Int
  Stride : Int
  Offset : Int
  Normalize : Bool
  deriving DecidableEq, Repr

/-- The loop `for i := range ge` of `GLErrors.Error`, started at index `i` with the elements
`ge[i:]` still to visit; `n` is `len(ge)` and `errstr` the string built so far. -/
def GLErrors.Error.loop (n : Nat) : Nat → List Nat → GoString → GoString
  | _, [], errstr => errstr
  | i, code :: rest, errstr =>
    let s : GoString :=
      if code = gl.INVALID_ENUM then str "invalid enum"
      else if code = gl.INVALID_FRAMEBUFFER_OPERATION then str "invalid framebuffer operation"
      else if code = gl.INVALID_INDEX then str "invalid index"
      else if code = gl.INVALID_OPERATION then str "invalid operation"
      else if code = gl.INVALID_VALUE then str "invalid value"
      else str "unknown error enum"
    let errstr := errstr ++ s
    let errstr := if i ≠ n - 1 then errstr ++ str "; " else errstr
    GLErrors.Error.loop n (i + 1) rest errstr

/-- The method `GLErrors.Error` of `examples/005-abstraction/abstractions.go`. -/
def GLErrors.Error (ge : List Nat) : GoString :=
  if ge.length = 0 then str "no gl errors"
  else GLErrors.Error.loop ge.length 0 ge []

/-- The `for` loop of `glCheckError`; `none` when it is still running after `fuel` rounds. -/
def glCheckError.loop {σ : Type} (d : Driver σ) :
    Nat → List Nat → World σ → Option (Option ExError × World σ)
  | 0, _, _ => none
  | fuel + 1, errs, w =>
    let r := gl.GetError d w
    let code := r.1
    if code = gl.NO_ERROR then some (some (.GLErrors errs), r.2)
    else glCheckError.loop d fuel (errs ++ [code]) r.2

/-- The function `glCheckError` of `examples/005-abstraction/abstractions.go`. -/
def glCheckError {σ : Type} (d : Driver σ) (fuel : Nat) (w : World σ) :
    Option (Option ExError × World σ) :=
  let r := gl.GetError d w
  let code := r.1
  if code = gl.NO_ERROR then some (none, r.2) else
  let errs := [code]
  let r := glfw.GetCurrentContext d r.2
  if r.1 = false then
    some (none, slog.Error d (str "glfw context nil") errs r.2)
  else glCheckError.loop d fuel errs r.2

/-- The method `VertexBuffer.Bind`. -/
def VertexBuffer.Bind {σ : Type} (d : Driver σ) (vbo : VertexBuffer) (w : World σ) : World σ :=
  gl.BindBuffer d gl.ARRAY_BUFFER vbo.rid w

/-- The method `VertexArray.AddAttribute`; `none` when `glCheckError` is still running after
`fuel` rounds. -/
def VertexArray.AddAttribute {σ : Type} (d : Driver σ) (fuel : Nat) (_vao : VertexArray)
    (vbo : VertexBuffer) (layout : AttribLayout) (w : World σ) :
    Option (Option ExError × World σ) :=
  if !strings.HasSuffix layout.Name (str "\x00") then
    some (some ErrStringNotNullTerminated, w)
  else
    let w := vbo.Bind d w
    let r := gl.GetAttribLocation d layout.Program.rid layout.Name w
    let vertAttrib := uint32 r.1
    let w := r.2
    let w := gl.EnableVertexAttribArray d vertAttrib w
    let w := gl.VertexAttribPointerWithOffset d vertAttrib (int32 layout.Packing) gl.FLOAT
      layout.Normalize (int32 layout.Stride) 0 w
    glCheckError d fuel w

/-- The method `Program.BindFrag`. -/
def Program.BindFrag {σ : Type} (d : Driver σ) (p : Program) (name : GoString) (w : World σ) :
    Option ExError × World σ :=
  if !strings.HasSuffix name (str "\x00") then
    (some ErrStringNotNullTerminated, w)
  else
    (none, gl.BindFragDataLocation d p.rid 0 name w)

/-- The method `Program.SetUniformName4f`. -/
def Program.SetUniformName4f {σ : Type} (d : Driver σ) (p : Program) (name : GoString)
    (v0 v1 v2 v3 : float32) (w : World σ) : Option ExError × World σ :=
  if !strings.HasSuffix name (str "\x00") then
    (some ErrStringNotNullTerminated, w)
  else
    let r := gl.GetUniformLocation d p.rid name w
    let loc := r.1
    if loc < 0 then
      (some (.errorString (str "unable to find uniform in program- did you use the identifier so it was not stripped from program?")), r.2)
    else
      (none, gl.Uniform4f d loc v0 v1 v2 v3 r.2)

end Example005

/-! ## Concrete drivers -/

/-- The value a driver that does nothing returns for each call. -/
def Call.idle : (c : Call) → c.Ret
  | .CreateProgram => (0 : Nat)
  | .CreateShader _ => (0 : Nat)
  | .GetError => gl.NO_ERROR
  | .GetShaderiv _ _ => gl.TRUE
  | .GetProgramiv _ _ => gl.TRUE
  | .GetAttribLocation _ _ => (0 : Int)
  | .GetUniformLocation _ _ => (0 : Int)
  | .GetShaderInfoLog _ _ => ((0 : Int), [])
  | .GetProgramInfoLog _ _ => ((0 : Int), [])
  | .GetCurrentContext => true
  | .ShaderSource _ _ => ()
  | .CompileShader _ => ()
  | .AttachShader _ _ => ()
  | .LinkProgram _ => ()
  | .ValidateProgram _ => ()
  | .DeleteShader _ => ()
  | .BindBuffer _ _ => ()
  | .EnableVertexAttribArray _ => ()
  | .VertexAttribPointerWithOffset _ _ _ _ _ _ => ()
  | .BindFragDataLocation _ _ _ => ()
  | .Uniform4f _ _ _ _ _ => ()
  | .slogError _ _ => ()

/-- The driver of the error-queue model: the state is the queue of pending error codes,
`gl.GetError` pops its head and returns `NO_ERROR` when it is empty, and
`glfw.GetCurrentContext` returns a non-nil window exactly when `current` holds.
No other call touches the queue. -/
def queueDriver (current : Bool) : Driver (List Nat)
  | .GetError, q => (q.headD gl.NO_ERROR, q.tail)
  | .GetCurrentContext, q => (current, q)
  | c, q => (c.idle, q)

/-- Behaviour of a scripted shader driver: the ids it hands out, the four statuses it
reports, and the info log (reported length, written-back length, bytes stored) it has for
every object. -/
structure Script where
  program : Nat
  vertex : Nat
  fragment : Nat
  vertexStatus : Int
  fragmentStatus : Int
  linkStatus : Int
  validateStatus : Int
  logLength : Int
  written : Int
  log : List UInt8

/-- The scripted shader driver; it has no state of its own. -/
def scriptDriver (b : Script) : Driver Unit
  | .CreateProgram, u => (b.program, u)
  | .CreateShader t, u => ((if t = gl.VERTEX_SHADER then b.vertex else b.fragment : Nat), u)
  | .GetShaderiv i p, u =>
    ((if p = gl.INFO_LOG_LENGTH then b.logLength
      else if i = b.vertex then b.vertexStatus else b.fragmentStatus : Int), u)
  | .GetProgramiv _ p, u =>
    ((if p = gl.INFO_LOG_LENGTH then b.logLength
      else if p = gl.LINK_STATUS then b.linkStatus else b.validateStatus : Int), u)
  | .GetShaderInfoLog _ _, u => ((b.written, b.log), u)
  | .GetProgramInfoLog _ _, u => ((b.written, b.log), u)
  | c, u => (c.idle, u)

/-! ## Specification-side vocabulary -/

/-- The name of an error code, as the specification lists them. -/
def errorName (code : Nat) : GoString :=
  if code = gl.INVALID_ENUM then str "invalid enum"
  else if code = gl.INVALID_FRAMEBUFFER_OPERATION then str "invalid framebuffer operation"
  else if code = gl.INVALID_INDEX then str "invalid index"
  else if code = gl.INVALID_OPERATION then str "invalid operation"
  else if code = gl.INVALID_VALUE then str "invalid value"
  else str "unknown error enum"

/-- The state of driver `d` after it answered the calls `cs`, in order, from state `s`. -/
def stateAfter {σ : Type} (d : Driver σ) (s : σ) : List Call → σ
  | [] => s
  | c :: cs => stateAfter d (d c s).2 cs

/-- What driver `d` hands back for the call `c` once it has answered the calls `cs` from
state `s`. -/
def answerAfter {σ : Type} (d : Driver σ) (s : σ) (cs : List Call) (c : Call) : c.Ret :=
  (d c (stateAfter d s cs)).1

/-- The world reached from driver state `s` and trace `t0` once the calls `t` were issued. -/
def reach {σ : Type} (d : Driver σ) (s : σ) (t0 t : List Call) : World σ :=
  { drv := stateAfter d s t, calls := t0 ++ t }

/-- The calls that only read a status, a log length or a log. -/
def Call.isQuery : Call → Bool
  | .GetShaderiv _ _ => true
  | .GetShaderInfoLog _ _ => true
  | .GetProgramiv _ _ => true
  | .GetProgramInfoLog _ _ => true
  | _ => false

/-- A name ends with the byte `0x00`. -/
def NullTerminated (name : GoString) : Prop := name.getLast? = some 0

instance (name : GoString) : Decidable (NullTerminated name) := by
  unfold NullTerminated; infer_instance

/-- The codes in front of the first `NO_ERROR` of a queue. -/
def pendingPrefix (q : List Nat) : List Nat := q.takeWhile (fun c => c != gl.NO_ERROR)

/-- What is left of a queue once its codes up to and including the first `NO_ERROR` are
popped. -/
def pendingRest (q : List Nat) : List Nat := (q.dropWhile (fun c => c != gl.NO_ERROR)).tail

/-- A driver whose only uniform is `u_color`, at location 7. -/
def uniformDriver : Driver Unit
  | .GetUniformLocation _ name, u => ((if name = str "u_color\x00" then 7 else -1 : Int), u)
  | c, u => (c.idle, u)

/-- A driver script: program 1, shaders 2 and 3, everything succeeds except linking, whose
info log is "AB" (three bytes with the terminator) with a written-back length of 99. -/
def linkFails : Script :=
  { program := 1, vertex := 2, fragment := 3, vertexStatus := gl.TRUE, fragmentStatus := gl.TRUE,
    linkStatus := gl.FALSE, validateStatus := gl.TRUE, logLength := 3, written := 99,
    log := [65, 66, 0] }

/-- A driver script: program 1, shaders 2 and 3, every status is `TRUE`. -/
def allSucceed : Script :=
  { program := 1, vertex := 2, fragment := 3, vertexStatus := gl.TRUE, fragmentStatus := gl.TRUE,
    linkStatus := gl.TRUE, validateStatus := gl.TRUE, logLength := 0, written := 0, log := [] }

/-- A driver script: program 1, shaders 2 and 3; the vertex shader fails to compile
(`COMPILE_STATUS` is `FALSE`) and its info log is empty: `INFO_LOG_LENGTH` is 1, the
terminator alone. -/
def vertexFailsSilently : Script :=
  { program := 1, vertex := 2, fragment := 3, vertexStatus := gl.FALSE, fragmentStatus := gl.TRUE,
    linkStatus := gl.TRUE, validateStatus := gl.TRUE, logLength := 1, written := 0, log := [0] }

/-- A layout for an attribute of four unsigned bytes that starts 8 bytes into each vertex. -/
def colorLayout : Example005.AttribLayout :=
  { Program := ⟨3⟩, Type' := gl.UNSIGNED_BYTE, Name := str "color\x00", Packing := 4,
    Stride := 12, Offset := 8, Normalize := true }

/-! ## Lemmas -/

theorem hasSuffix_nul_iff (name : GoString) :
    strings.HasSuffix name (str "\x00") = true ↔ NullTerminated name := by
  have hs : str "\x00" = [0] := by decide
  rw [hs]
  unfold strings.HasSuffix NullTerminated
  rcases List.eq_nil_or_concat name with h | ⟨l, a, h⟩
  · subst h; simp
  · subst h
    simp [List.getLast?_concat]

theorem error_loop_005 (n : Nat) (rest : List Nat) :
    ∀ (i : Nat) (errstr : GoString), rest ≠ [] → i + rest.length = n →
      Example005.GLErrors.Error.loop n i rest errstr
        = errstr ++ (str "; ").intercalate (rest.map errorName) := by
  induction rest with
  | nil => intro i errstr h; exact absurd rfl h
  | cons c rest ih =>
    intro i errstr _ hlen
    cases rest with
    | nil =>
      have hi : i = n - 1 := by simp at hlen; omega
      simp [Example005.GLErrors.Error.loop, errorName, hi, List.intercalate]
    | cons c2 rest =>
      have hi : i ≠ n - 1 := by simp at hlen; omega
      have hlen2 : (i + 1) + (c2 :: rest).length = n := by simp at hlen ⊢; omega
      rw [Example005.GLErrors.Error.loop]
      simp only [hi, ne_eq, not_false_eq_true, if_true]
      rw [ih (i + 1) _ (by simp) hlen2]
      simp [errorName, List.intercalate, List.intersperse]

theorem error_loop_004 (n : Nat) (rest : List Nat) :
    ∀ (i : Nat) (errstr : GoString),
      Example004.GLErrors.Error.loop n i rest errstr
        = Example005.GLErrors.Error.loop n i rest errstr := by
  induction rest with
  | nil => intro i errstr; rfl
  | cons c rest ih =>
    intro i errstr
    rw [Example004.GLErrors.Error.loop, Example005.GLErrors.Error.loop]
    exact ih _ _

theorem loop_005_result {σ : Type} (d : Driver σ) :
    ∀ (fuel : Nat) (errs : List Nat) (w : World σ) (r : Option ExError) (w2 : World σ),
      Example005.glCheckError.loop d fuel errs w = some (r, w2) →
      ∃ ge, r = some (.GLErrors ge) := by
  intro fuel
  induction fuel with
  | zero => intro errs w r w2 h; simp [Example005.glCheckError.loop] at h
  | succ fuel ih =>
    intro errs w r w2 h
    rw [Example005.glCheckError.loop] at h
    simp only [gl.GetError] at h
    split at h
    · simp only [Option.some.injEq, Prod.mk.injEq] at h
      exact ⟨errs, h.1.symm⟩
    · exact ih _ _ _ _ h

theorem loop_004_eq_005 {σ : Type} (d : Driver σ) :
    ∀ (fuel : Nat) (errs : List Nat) (w : World σ),
      Example004.glCheckError.loop d fuel errs w = Example005.glCheckError.loop d fuel errs w := by
  intro fuel
  induction fuel with
  | zero => intro errs w; rfl
  | succ fuel ih =>
    intro errs w
    rw [Example004.glCheckError.loop, Example005.glCheckError.loop]
    split
    · rfl
    · exact ih _ _

theorem loop_005_queue (current : Bool) :
    ∀ (q : List Nat) (fuel : Nat) (errs : List Nat) (calls : List Call),
      (pendingPrefix q).length < fuel →
      Example005.glCheckError.loop (queueDriver current) fuel errs ⟨q, calls⟩
        = some (some (.GLErrors (errs ++ pendingPrefix q)),
            ⟨pendingRest q, calls ++ List.replicate ((pendingPrefix q).length + 1) .GetError⟩) := by
  intro q
  induction q with
  | nil =>
    intro fuel errs calls h
    cases fuel with
    | zero => simp at h
    | succ fuel =>
      simp [Example005.glCheckError.loop, gl.GetError, World.call, queueDriver, pendingPrefix,
        pendingRest]
  | cons c q ih =>
    intro fuel errs calls h
    cases fuel with
    | zero => simp at h
    | succ fuel =>
      by_cases hc : c = gl.NO_ERROR
      · simp [Example005.glCheckError.loop, gl.GetError, World.call, queueDriver, pendingPrefix,
          pendingRest, hc]
      · have hp : pendingPrefix (c :: q) = c :: pendingPrefix q := by
          simp [pendingPrefix, hc]
        have hr : pendingRest (c :: q) = pendingRest q := by
          simp [pendingRest, hc]
        rw [hp] at h
        have h2 : (pendingPrefix q).length < fuel := by simpa using h
        rw [Example005.glCheckError.loop]
        simp only [gl.GetError, World.call, queueDriver, List.headD_cons, hc, if_false,
          List.tail_cons]
        rw [ih fuel _ _ h2, hp, hr]
        simp [List.replicate_succ]

theorem stateAfter_append {σ : Type} (d : Driver σ) (cs : List Call) :
    ∀ (s : σ) (c : Call), stateAfter d s (cs ++ [c]) = (d c (stateAfter d s cs)).2 := by
  induction cs with
  | nil => intro s c; rfl
  | cons a cs ih => intro s c; exact ih (d a s).2 c

theorem call_reach {σ : Type} (d : Driver σ) (s : σ) (t0 t : List Call) (c : Call) :
    World.call d c (reach d s t0 t) = (answerAfter d s t c, reach d s t0 (t ++ [c])) := by
  simp [World.call, reach, answerAfter, stateAfter_append, List.append_assoc]

theorem ivLog_shader_ok {σ : Type} (d : Driver σ) (s : σ) (t0 t : List Call) (id pl : Nat)
    (h : (answerAfter d s t (.GetShaderiv id pl) : Int) ≠ gl.FALSE) :
    shaders.ivLog id pl (gl.GetShaderiv d) (gl.GetShaderInfoLog d) (reach d s t0 t)
      = (some [], reach d s t0 (t ++ [.GetShaderiv id pl])) := by
  have h2 : (World.call d (.GetShaderiv id pl) (reach d s t0 t)).1 ≠ gl.FALSE := by
    rw [call_reach]; exact h
  simp only [shaders.ivLog, gl.GetShaderiv, h2, if_false]
  rw [call_reach]

theorem ivLog_program_ok {σ : Type} (d : Driver σ) (s : σ) (t0 t : List Call) (id pl : Nat)
    (h : (answerAfter d s t (.GetProgramiv id pl) : Int) ≠ gl.FALSE) :
    shaders.ivLog id pl (gl.GetProgramiv d) (gl.GetProgramInfoLog d) (reach d s t0 t)
      = (some [], reach d s t0 (t ++ [.GetProgramiv id pl])) := by
  have h2 : (World.call d (.GetProgramiv id pl) (reach d s t0 t)).1 ≠ gl.FALSE := by
    rw [call_reach]; exact h
  simp only [shaders.ivLog, gl.GetProgramiv, h2, if_false]
  rw [call_reach]

theorem compile_ok {σ : Type} (d : Driver σ) (s : σ) (t0 t : List Call) (ty id : Nat)
    (src : GoString)
    (hid : answerAfter d s t (.CreateShader ty) = id)
    (h : (answerAfter d s (t ++ [.CreateShader ty, .ShaderSource id src, .CompileShader id])
      (.GetShaderiv id gl.COMPILE_STATUS) : Int) ≠ gl.FALSE) :
    shaders.compile d ty src (reach d s t0 t)
      = (some (id, none), reach d s t0 (t ++ [.CreateShader ty, .ShaderSource id src,
          .CompileShader id, .GetShaderiv id gl.COMPILE_STATUS])) := by
  simp only [shaders.compile, gl.CreateShader, gl.ShaderSource, gl.CompileShader, call_reach, hid,
    List.append_assoc, List.singleton_append]
  rw [ivLog_shader_ok d s t0 _ id gl.COMPILE_STATUS (by simpa using h)]
  simp

theorem call_calls {σ : Type} (d : Driver σ) (c : Call) (w : World σ) :
    (World.call d c w).2.calls = w.calls ++ [c] := rfl

theorem ivLog_shader_calls {σ : Type} (d : Driver σ) (id pl : Nat) (w : World σ) :
    ∃ extra : List Call,
      (shaders.ivLog id pl (gl.GetShaderiv d) (gl.GetShaderInfoLog d) w).2.calls
        = w.calls ++ extra ∧ ∀ c ∈ extra, c.isQuery = true := by
  simp only [shaders.ivLog, gl.GetShaderiv, gl.GetShaderInfoLog]
  split
  · split
    · simp only [call_calls, List.append_assoc]
      exact ⟨_, rfl, by simp [Call.isQuery]⟩
    · split
      · simp only [call_calls, List.append_assoc]
        exact ⟨_, rfl, by simp [Call.isQuery]⟩
      · simp only [call_calls, List.append_assoc]
        exact ⟨_, rfl, by simp [Call.isQuery]⟩
  · simp only [call_calls]
    exact ⟨_, rfl, by simp [Call.isQuery]⟩

theorem ivLog_program_calls {σ : Type} (d : Driver σ) (id pl : Nat) (w : World σ) :
    ∃ extra : List Call,
      (shaders.ivLog id pl (gl.GetProgramiv d) (gl.GetProgramInfoLog d) w).2.calls
        = w.calls ++ extra ∧ ∀ c ∈ extra, c.isQuery = true := by
  simp only [shaders.ivLog, gl.GetProgramiv, gl.GetProgramInfoLog]
  split
  · split
    · simp only [call_calls, List.append_assoc]
      exact ⟨_, rfl, by simp [Call.isQuery]⟩
    · split
      · simp only [call_calls, List.append_assoc]
        exact ⟨_, rfl, by simp [Call.isQuery]⟩
      · simp only [call_calls, List.append_assoc]
        exact ⟨_, rfl, by simp [Call.isQuery]⟩
  · simp only [call_calls]
    exact ⟨_, rfl, by simp [Call.isQuery]⟩

theorem compile_of_log {σ : Type} (d : Driver σ) (ty : Nat) (src : GoString) (w : World σ)
    (L : GoString)
    (h : (shaders.ivLog (gl.CreateShader d ty w).1 gl.COMPILE_STATUS
      (gl.GetShaderiv d) (gl.GetShaderInfoLog d)
      (gl.CompileShader d (gl.CreateShader d ty w).1
        (gl.ShaderSource d (gl.CreateShader d ty w).1 src (gl.CreateShader d ty w).2))).1
      = some L) :
    shaders.compile d ty src w
      = (if L = [] then some ((gl.CreateShader d ty w).1, none)
          else some (0, some (.errorString L)),
        (shaders.ivLog (gl.CreateShader d ty w).1 gl.COMPILE_STATUS
          (gl.GetShaderiv d) (gl.GetShaderInfoLog d)
          (gl.CompileShader d (gl.CreateShader d ty w).1
            (gl.ShaderSource d (gl.CreateShader d ty w).1 src (gl.CreateShader d ty w).2))).2) := by
  simp only [shaders.compile, h]
  by_cases hl : L = []
  · simp [hl]
  · have : 0 < L.length := List.length_pos.mpr hl
    simp [hl, this]

/-! ## Theorems -/

/-- C8: `GLErrors.Error` returns "no gl errors" for the empty list and, for a non-empty
list, the names of the codes in list order joined by "; " with no separator in front or at
the end; the methods of examples 004 and 005 return the same string for every list. -/
theorem GLErrors_Error_renders (ge : List Nat) :
    Example005.GLErrors.Error [] = str "no gl errors" ∧
    (ge ≠ [] →
      Example005.GLErrors.Error ge = (str "; ").intercalate (ge.map errorName)) ∧
    Example004.GLErrors.Error ge = Example005.GLErrors.Error ge := by
  refine ⟨rfl, ?_, ?_⟩
  · intro h
    have hl : ge.length ≠ 0 := by simpa using h
    simp only [Example005.GLErrors.Error, hl, if_false]
    rw [error_loop_005 ge.length ge 0 [] h (by simp)]
    simp
  · simp only [Example004.GLErrors.Error, Example005.GLErrors.Error]
    rw [error_loop_004]

/-- Witness of C8 on the list `[INVALID_VALUE, 7, INVALID_INDEX]`. -/
theorem GLErrors_Error_renders_witness :
    Example005.GLErrors.Error [gl.INVALID_VALUE, 7, gl.INVALID_INDEX]
      = str "invalid value; unknown error enum; invalid index" :=
  ((GLErrors_Error_renders [gl.INVALID_VALUE, 7, gl.INVALID_INDEX]).2.1 (by decide)).trans
    (by decide)

/-- C5: each of `VertexArray.AddAttribute` (on `layout.Name`), `Program.BindFrag` and
`Program.SetUniformName4f` returns `ErrStringNotNullTerminated` if and only if the name does
not end with the byte `0x00`, and then the world (driver state and trace of issued calls) is
the one at entry: no call was issued. -/
theorem names_need_null_terminator {σ : Type} (d : Driver σ) (w : World σ) (fuel : Nat)
    (vao : Example005.VertexArray) (vbo : Example005.VertexBuffer)
    (layout : Example005.AttribLayout) (p : Example005.Program) (name : GoString)
    (v0 v1 v2 v3 : float32) :
    (((vao.AddAttribute d fuel vbo layout w).map Prod.fst
        = some (some Example005.ErrStringNotNullTerminated) ↔ ¬ NullTerminated layout.Name) ∧
      (¬ NullTerminated layout.Name → vao.AddAttribute d fuel vbo layout w
        = some (some Example005.ErrStringNotNullTerminated, w))) ∧
    (((p.BindFrag d name w).1 = some Example005.ErrStringNotNullTerminated
        ↔ ¬ NullTerminated name) ∧
      (¬ NullTerminated name → p.BindFrag d name w
        = (some Example005.ErrStringNotNullTerminated, w))) ∧
    (((p.SetUniformName4f d name v0 v1 v2 v3 w).1 = some Example005.ErrStringNotNullTerminated
        ↔ ¬ NullTerminated name) ∧
      (¬ NullTerminated name → p.SetUniformName4f d name v0 v1 v2 v3 w
        = (some Example005.ErrStringNotNullTerminated, w))) := by
  have hne : (ExError.errorString (str "unable to find uniform in program- did you use the identifier so it was not stripped from program?"))
      ≠ Example005.ErrStringNotNullTerminated := by decide
  refine ⟨?_, ?_, ?_⟩
  · by_cases h : NullTerminated layout.Name
    · have hs := (hasSuffix_nul_iff layout.Name).2 h
      have key : (vao.AddAttribute d fuel vbo layout w).map Prod.fst
          ≠ some (some Example005.ErrStringNotNullTerminated) := by
        simp only [Example005.VertexArray.AddAttribute, hs, Bool.not_true, Bool.false_eq_true,
          if_false, Example005.glCheckError]
        split
        · simp
        · split
          · simp
          · intro hc
            rcases hr : Example005.glCheckError.loop d fuel _ _ with _ | ⟨r, w2⟩
            · rw [hr] at hc; simp at hc
            · rw [hr] at hc
              obtain ⟨ge, hge⟩ := loop_005_result d fuel _ _ r w2 hr
              subst hge
              simp [Example005.ErrStringNotNullTerminated] at hc
      exact ⟨⟨fun hc => absurd hc key, fun hn => absurd h hn⟩, fun hn => absurd h hn⟩
    · have hs : strings.HasSuffix layout.Name (str "\x00") = false := by
        rw [← Bool.not_eq_true, hasSuffix_nul_iff]; exact h
      simp [Example005.VertexArray.AddAttribute, hs, h]
  · by_cases h : NullTerminated name
    · have hs := (hasSuffix_nul_iff name).2 h
      simp [Example005.Program.BindFrag, hs, h]
    · have hs : strings.HasSuffix name (str "\x00") = false := by
        rw [← Bool.not_eq_true, hasSuffix_nul_iff]; exact h
      simp [Example005.Program.BindFrag, hs, h]
  · by_cases h : NullTerminated name
    · have hs := (hasSuffix_nul_iff name).2 h
      simp only [Example005.Program.SetUniformName4f, hs, h]
      simp
      split <;> simp [hne]
    · have hs : strings.HasSuffix name (str "\x00") = false := by
        rw [← Bool.not_eq_true, hasSuffix_nul_iff]; exact h
      simp [Example005.Program.SetUniformName4f, hs, h]

/-- Witness of C5: the name `u_color` lacks the terminator, so `BindFrag` returns
`ErrStringNotNullTerminated` and the world is untouched. -/
theorem names_need_null_terminator_witness :
    ¬ NullTerminated (str "u_color") ∧
    Example005.Program.BindFrag (queueDriver true) ⟨3⟩ (str "u_color") ⟨[], []⟩
      = (some Example005.ErrStringNotNullTerminated, ⟨[], []⟩) :=
  ⟨by decide,
   (names_need_null_terminator (queueDriver true) ⟨[], []⟩ 0 ⟨1⟩ ⟨2⟩
      ⟨⟨3⟩, gl.FLOAT, str "vert", 2, 8, 0, false⟩ ⟨3⟩ (str "u_color") 0 0 0 0).2.1.2
      (by decide)⟩

/-- C6: for a null-terminated name, when `gl.GetUniformLocation` returns a negative location
`Program.SetUniformName4f` returns a non-nil error other than `ErrStringNotNullTerminated`
and the only call issued is the lookup (no `gl.Uniform4f`); when the location is `>= 0` it
returns nil and the calls issued are the lookup followed by exactly one `gl.Uniform4f` with
that location and `v0, v1, v2, v3` in order. -/
theorem SetUniformName4f_uniform_lookup {σ : Type} (d : Driver σ) (w : World σ)
    (p : Example005.Program) (name : GoString) (v0 v1 v2 v3 : float32) (loc : Int)
    (hname : NullTerminated name)
    (hloc : (d (.GetUniformLocation p.rid name) w.drv).1 = loc) :
    (loc < 0 →
      (∃ e, (p.SetUniformName4f d name v0 v1 v2 v3 w).1 = some e ∧
        e ≠ Example005.ErrStringNotNullTerminated) ∧
      (p.SetUniformName4f d name v0 v1 v2 v3 w).2.calls
        = w.calls ++ [.GetUniformLocation p.rid name]) ∧
    (0 ≤ loc →
      (p.SetUniformName4f d name v0 v1 v2 v3 w).1 = none ∧
      (p.SetUniformName4f d name v0 v1 v2 v3 w).2.calls
        = w.calls ++ [.GetUniformLocation p.rid name, .Uniform4f loc v0 v1 v2 v3]) := by
  have hs := (hasSuffix_nul_iff name).2 hname
  have hne : (ExError.errorString (str "unable to find uniform in program- did you use the identifier so it was not stripped from program?"))
      ≠ Example005.ErrStringNotNullTerminated := by decide
  have hcall : (gl.GetUniformLocation d p.rid name w).1 = loc := hloc
  constructor
  · intro hneg
    simp only [Example005.Program.SetUniformName4f, hs, Bool.not_true, Bool.false_eq_true,
      if_false, hcall, hneg, if_true]
    exact ⟨⟨_, rfl, hne⟩, rfl⟩
  · intro hpos
    have hpos2 : ¬ loc < 0 := not_lt.mpr hpos
    simp only [Example005.Program.SetUniformName4f, hs, Bool.not_true, Bool.false_eq_true,
      if_false, hcall, hpos2]
    simp [gl.Uniform4f, gl.GetUniformLocation, World.call, hloc]

/-- Witness of C6: `u_color` is found at location 7 and set; `u_colour` is not found. -/
theorem SetUniformName4f_uniform_lookup_witness :
    (NullTerminated (str "u_color\x00") ∧
      (Example005.Program.SetUniformName4f uniformDriver ⟨1⟩ (str "u_color\x00") 2 3 8 1
        ⟨(), []⟩).1 = none ∧
      (Example005.Program.SetUniformName4f uniformDriver ⟨1⟩ (str "u_color\x00") 2 3 8 1
        ⟨(), []⟩).2.calls = [.GetUniformLocation 1 (str "u_color\x00"), .Uniform4f 7 2 3 8 1]) ∧
    (NullTerminated (str "u_colour\x00") ∧
      (Example005.Program.SetUniformName4f uniformDriver ⟨1⟩ (str "u_colour\x00") 2 3 8 1
        ⟨(), []⟩).2.calls = [.GetUniformLocation 1 (str "u_colour\x00")]) :=
  ⟨⟨by decide,
    (SetUniformName4f_uniform_lookup uniformDriver ⟨(), []⟩ ⟨1⟩ (str "u_color\x00") 2 3 8 1 7
      (by decide) rfl).2 (by decide)⟩,
   by decide,
   ((SetUniformName4f_uniform_lookup uniformDriver ⟨(), []⟩ ⟨1⟩ (str "u_colour\x00") 2 3 8 1 (-1)
      (by decide) rfl).1 (by decide)).2⟩

/-- C9: with `gl.GetError` popping a finite queue `q` (returning `NO_ERROR` when it is
empty) and a non-nil current context, `glCheckError` returns once the fuel covers the queue;
the versions of examples 004 and 005 return the same value and leave the same queue.  The
value is nil exactly when no code stands in front of the first `NO_ERROR`, and otherwise the
`GLErrors` of the codes in front of it, in queue order; it never contains `NO_ERROR`.  When no
queued code is `NO_ERROR` (a pending error never is), the value is nil if and only if the queue
was empty at entry, otherwise it is the whole queue, and the queue is drained on return. -/
theorem glCheckError_reports_pending (q : List Nat) (calls : List Call) (fuel : Nat)
    (hfuel : q.length ≤ fuel) :
    ∃ (r : Option ExError) (w4 w5 : World (List Nat)),
      Example005.glCheckError (queueDriver true) fuel ⟨q, calls⟩ = some (r, w5) ∧
      Example004.glCheckError (queueDriver true) fuel ⟨q, calls⟩ = some (r, w4) ∧
      w4.drv = pendingRest q ∧ w5.drv = pendingRest q ∧
      (r = none ↔ pendingPrefix q = []) ∧
      (r ≠ none → r = some (.GLErrors (pendingPrefix q))) ∧
      (∀ ge, r = some (.GLErrors ge) → gl.NO_ERROR ∉ ge) ∧
      ((∀ c ∈ q, c ≠ gl.NO_ERROR) →
        (r = none ↔ q = []) ∧ (q ≠ [] → r = some (.GLErrors q)) ∧
        w4.drv = [] ∧ w5.drv = []) := by
  have hno : gl.NO_ERROR ∉ pendingPrefix q := by
    intro hm
    have := List.mem_takeWhile_imp hm
    simp at this
  cases q with
  | nil =>
    refine ⟨none, ⟨[], calls ++ [.GetError]⟩, ⟨[], calls ++ [.GetError]⟩, ?_⟩
    simp [Example005.glCheckError, Example004.glCheckError, gl.GetError, World.call, queueDriver,
      pendingPrefix, pendingRest]
  | cons c q =>
    by_cases hc : c = gl.NO_ERROR
    · refine ⟨none, ⟨q, calls ++ [.GetError]⟩, ⟨q, calls ++ [.GetError]⟩, ?_⟩
      simp [Example005.glCheckError, Example004.glCheckError, gl.GetError, World.call,
        queueDriver, pendingPrefix, pendingRest, hc]
    · have hp : pendingPrefix (c :: q) = c :: pendingPrefix q := by
        simp [pendingPrefix, hc]
      have hr : pendingRest (c :: q) = pendingRest q := by
        simp [pendingRest, hc]
      have hlen : (pendingPrefix q).length < fuel := by
        have h1 : (pendingPrefix q).length ≤ q.length := by
          unfold pendingPrefix
          exact (List.takeWhile_sublist _).length_le
        simp at hfuel
        omega
      have h5 := loop_005_queue true q fuel [c] (calls ++ [.GetError] ++ [.GetCurrentContext]) hlen
      have h4 := loop_005_queue true q fuel [c] (calls ++ [.GetError]) hlen
      rw [← loop_004_eq_005] at h4
      refine ⟨some (.GLErrors (c :: pendingPrefix q)),
        ⟨pendingRest q, calls ++ [.GetError] ++
          List.replicate ((pendingPrefix q).length + 1) .GetError⟩,
        ⟨pendingRest q, calls ++ [.GetError] ++ [.GetCurrentContext] ++
          List.replicate ((pendingPrefix q).length + 1) .GetError⟩, ?_, ?_, ?_, ?_, ?_, ?_, ?_, ?_⟩
      · simp only [Example005.glCheckError, gl.GetError, glfw.GetCurrentContext, World.call,
          queueDriver, List.headD_cons, hc, if_false, List.tail_cons]
        simpa using h5
      · simp only [Example004.glCheckError, gl.GetError, World.call, queueDriver,
          List.headD_cons, hc, if_false, List.tail_cons]
        simpa using h4
      · exact hr.symm
      · exact hr.symm
      · simp [hp]
      · intro _; rw [hp]
      · intro ge hge
        simp only [Option.some.injEq, ExError.GLErrors.injEq] at hge
        rw [← hge, ← hp]; exact hno
      · intro hall
        have hfull : ∀ l : List Nat, (∀ x ∈ l, x ≠ gl.NO_ERROR) →
            pendingPrefix l = l ∧ pendingRest l = [] := by
          intro l hl
          constructor
          · unfold pendingPrefix
            rw [List.takeWhile_eq_self_iff]
            intro x hx; simpa using hl x hx
          · unfold pendingRest
            have : l.dropWhile (fun c => c != gl.NO_ERROR) = [] := by
              rw [List.dropWhile_eq_nil_iff]
              intro x hx; simpa using hl x hx
            rw [this]; rfl
        have hq := hfull q (fun x hx => hall x (List.mem_cons_of_mem _ hx))
        refine ⟨by simp, ?_, ?_, ?_⟩
        · intro _; rw [hq.1]
        · exact hq.2
        · exact hq.2

/-- Witness of C9 on the queue `[INVALID_ENUM, INVALID_VALUE]` with fuel 2. -/
theorem glCheckError_reports_pending_witness :
    ∃ (r : Option ExError) (w4 w5 : World (List Nat)),
      Example005.glCheckError (queueDriver true) 2 ⟨[gl.INVALID_ENUM, gl.INVALID_VALUE], []⟩
        = some (r, w5) ∧
      Example004.glCheckError (queueDriver true) 2 ⟨[gl.INVALID_ENUM, gl.INVALID_VALUE], []⟩
        = some (r, w4) ∧
      r = some (.GLErrors [gl.INVALID_ENUM, gl.INVALID_VALUE]) ∧ w4.drv = [] ∧ w5.drv = [] := by
  obtain ⟨r, w4, w5, h5, h4, _, _, _, _, _, hall⟩ :=
    glCheckError_reports_pending [gl.INVALID_ENUM, gl.INVALID_VALUE] [] 2 (by decide)
  have h := hall (by decide)
  exact ⟨r, w4, w5, h5, h4, h.2.1 (by decide), h.2.2.1, h.2.2.2⟩

/-- C4: when `getIV` reports a status other than `FALSE`, `ivLog` returns the empty string
and the world is the one left by that single query (no `INFO_LOG_LENGTH` query, no `getInfo`).
When `getIV` reports `FALSE` and then an `INFO_LOG_LENGTH` of `n >= 1`, `ivLog` calls
`getInfo` with `bufSize = n` on a buffer of exactly `n` bytes and returns exactly the first
`n - 1` bytes of that buffer; the written length that `getInfo` reports back plays no part. -/
theorem ivLog_extracts_log {W : Type} (id plName : Nat) (getIV : Nat → Nat → W → Int × W)
    (getInfo : Nat → Int → W → (Int × List UInt8) × W) (w : W) (n : Int) :
    ((getIV id plName w).1 ≠ gl.FALSE →
      shaders.ivLog id plName getIV getInfo w = (some [], (getIV id plName w).2)) ∧
    ((getIV id plName w).1 = gl.FALSE →
      (getIV id gl.INFO_LOG_LENGTH (getIV id plName w).2).1 = n → 1 ≤ n →
      ∃ buf : List UInt8,
        buf = writeBuf (List.replicate n.toNat 0)
          (getInfo id n (getIV id gl.INFO_LOG_LENGTH (getIV id plName w).2).2).1.2 ∧
        buf.length = n.toNat ∧
        shaders.ivLog id plName getIV getInfo w
          = (some (buf.take (n.toNat - 1)),
              (getInfo id n (getIV id gl.INFO_LOG_LENGTH (getIV id plName w).2).2).2) ∧
        (buf.take (n.toNat - 1)).length = n.toNat - 1) := by
  constructor
  · intro h
    simp [shaders.ivLog, h]
  · intro h hn hpos
    have hlen : (writeBuf (List.replicate n.toNat 0)
        (getInfo id n (getIV id gl.INFO_LOG_LENGTH (getIV id plName w).2).2).1.2).length
        = n.toNat := by
      simp [writeBuf]
      omega
    refine ⟨_, rfl, hlen, ?_, ?_⟩
    · have h1 : ¬ n < 0 := by omega
      have h2 : ¬ n.toNat = 0 := by omega
      simp [shaders.ivLog, h, hn, h1, h2, hlen]
    · simp [hlen]

/-- Witness of C4: on a failed link with a three-byte log buffer `ivLog` returns its first two
bytes. -/
theorem ivLog_extracts_log_witness :
    (shaders.ivLog 1 gl.LINK_STATUS (gl.GetProgramiv (scriptDriver linkFails))
      (gl.GetProgramInfoLog (scriptDriver linkFails)) ⟨(), []⟩).1 = some [65, 66] := by
  obtain ⟨buf, hb, _, h, _⟩ := (ivLog_extracts_log 1 gl.LINK_STATUS
    (gl.GetProgramiv (scriptDriver linkFails)) (gl.GetProgramInfoLog (scriptDriver linkFails))
    ⟨(), []⟩ 3).2 (by decide) (by decide) (by decide)
  rw [h, hb]
  decide

/-- C2: when the driver answers every status query of the run (`COMPILE_STATUS` of the vertex
and of the fragment shader, `LINK_STATUS` and `VALIDATE_STATUS` of the program, each in the
world in which `CompileBasic` asks) with a value other than `FALSE`, `CompileBasic` returns a
nil error together with the id `gl.CreateProgram` returned at entry, and the world on return
is the one reached by issuing, in order: create program, create/source/compile/query the vertex
shader, the same for the fragment shader, attach the vertex shader, attach the fragment
shader, link, query, validate, query, delete both shaders. -/
theorem CompileBasic_success {σ : Type} (d : Driver σ) (vertexSrcCode fragmentSrcCode : GoString)
    (s : σ) (t0 : List Call) (program vid fid : Nat) (tv tf tl tval : List Call)
    (hprogram : (gl.CreateProgram d (reach d s t0 [])).1 = program)
    (hvid : (gl.CreateShader d gl.VERTEX_SHADER (reach d s t0 [.CreateProgram])).1 = vid)
    (htv : tv = [.CreateProgram, .CreateShader gl.VERTEX_SHADER,
      .ShaderSource vid vertexSrcCode, .CompileShader vid])
    (hv : (gl.GetShaderiv d vid gl.COMPILE_STATUS (reach d s t0 tv)).1 ≠ gl.FALSE)
    (hfid : (gl.CreateShader d gl.FRAGMENT_SHADER
      (reach d s t0 (tv ++ [.GetShaderiv vid gl.COMPILE_STATUS]))).1 = fid)
    (htf : tf = tv ++ [.GetShaderiv vid gl.COMPILE_STATUS, .CreateShader gl.FRAGMENT_SHADER,
      .ShaderSource fid fragmentSrcCode, .CompileShader fid])
    (hf : (gl.GetShaderiv d fid gl.COMPILE_STATUS (reach d s t0 tf)).1 ≠ gl.FALSE)
    (htl : tl = tf ++ [.GetShaderiv fid gl.COMPILE_STATUS, .AttachShader program vid,
      .AttachShader program fid, .LinkProgram program])
    (hl : (gl.GetProgramiv d program gl.LINK_STATUS (reach d s t0 tl)).1 ≠ gl.FALSE)
    (htval : tval = tl ++ [.GetProgramiv program gl.LINK_STATUS, .ValidateProgram program])
    (hval : (gl.GetProgramiv d program gl.VALIDATE_STATUS (reach d s t0 tval)).1 ≠ gl.FALSE) :
    shaders.CompileBasic d vertexSrcCode fragmentSrcCode (reach d s t0 [])
      = (some (program, none),
          reach d s t0 (tval ++ [.GetProgramiv program gl.VALIDATE_STATUS, .DeleteShader vid,
            .DeleteShader fid])) := by
  simp only [gl.CreateProgram, gl.CreateShader, gl.GetShaderiv, gl.GetProgramiv, call_reach]
    at hprogram hvid hv hfid hf hl hval
  subst htval htl htf htv
  subst hfid hvid hprogram
  simp only [shaders.CompileBasic, gl.CreateProgram, call_reach, List.nil_append]
  rw [compile_ok d s t0 _ gl.VERTEX_SHADER _ vertexSrcCode rfl (by simpa using hv)]
  simp only [List.cons_append, List.nil_append]
  rw [compile_ok d s t0 _ gl.FRAGMENT_SHADER _ fragmentSrcCode rfl (by simpa using hf)]
  simp only [gl.AttachShader, gl.LinkProgram, call_reach, List.cons_append, List.nil_append]
  rw [ivLog_program_ok d s t0 _ _ gl.LINK_STATUS (by simpa using hl)]
  simp only [gl.ValidateProgram, call_reach, List.cons_append, List.nil_append, List.length_nil,
    gt_iff_lt, lt_self_iff_false, if_false]
  rw [ivLog_program_ok d s t0 _ _ gl.VALIDATE_STATUS (by simpa using hval)]
  simp only [gl.DeleteShader, call_reach, List.cons_append, List.nil_append, List.length_nil,
    gt_iff_lt, lt_self_iff_false, if_false]

/-- C3: `CompileBasic` reports the first stage, in the order vertex compile, fragment compile,
link, validation, whose log query (`ivLog`) yields a non-empty log `L` while every earlier
stage yielded the empty log: the error's message is the stage's prefix followed by `L`, the
returned id is 0, and the world on return is the one left by that stage's log query, so no
later stage is run: every call issued is a status/log query or one of the calls listed for
the stages up to the failing one. -/
theorem CompileBasic_first_failing_stage {σ : Type} (d : Driver σ)
    (vertexSrcCode fragmentSrcCode : GoString) (s : σ) (L : GoString) (hL : L ≠ []) :
    let w0 : World σ := ⟨s, []⟩
    let program := (gl.CreateProgram d w0).1
    let c1 := gl.CreateShader d gl.VERTEX_SHADER (gl.CreateProgram d w0).2
    let vid := c1.1
    let rv := shaders.ivLog vid gl.COMPILE_STATUS (gl.GetShaderiv d) (gl.GetShaderInfoLog d)
      (gl.CompileShader d vid (gl.ShaderSource d vid vertexSrcCode c1.2))
    let c2 := gl.CreateShader d gl.FRAGMENT_SHADER rv.2
    let fid := c2.1
    let rf := shaders.ivLog fid gl.COMPILE_STATUS (gl.GetShaderiv d) (gl.GetShaderInfoLog d)
      (gl.CompileShader d fid (gl.ShaderSource d fid fragmentSrcCode c2.2))
    let rl := shaders.ivLog program gl.LINK_STATUS (gl.GetProgramiv d) (gl.GetProgramInfoLog d)
      (gl.LinkProgram d program
        (gl.AttachShader d program fid (gl.AttachShader d program vid rf.2)))
    let rval := shaders.ivLog program gl.VALIDATE_STATUS (gl.GetProgramiv d)
      (gl.GetProgramInfoLog d) (gl.ValidateProgram d program rl.2)
    let r := shaders.CompileBasic d vertexSrcCode fragmentSrcCode w0
    let stageV : List Call := [.CreateProgram, .CreateShader gl.VERTEX_SHADER,
      .ShaderSource vid vertexSrcCode, .CompileShader vid]
    let stageF : List Call := [.CreateShader gl.FRAGMENT_SHADER,
      .ShaderSource fid fragmentSrcCode, .CompileShader fid]
    let stageL : List Call := [.AttachShader program vid, .AttachShader program fid,
      .LinkProgram program]
    (rv.1 = some L →
      (∃ e, r = (some (0, some e), rv.2) ∧ e.Error = str "vertex shader compile: " ++ L) ∧
      ∀ c ∈ r.2.calls, c.isQuery = true ∨ c ∈ stageV) ∧
    (rv.1 = some [] → rf.1 = some L →
      (∃ e, r = (some (0, some e), rf.2) ∧ e.Error = str "fragment shader compile: " ++ L) ∧
      ∀ c ∈ r.2.calls, c.isQuery = true ∨ c ∈ stageV ++ stageF) ∧
    (rv.1 = some [] → rf.1 = some [] → rl.1 = some L →
      (∃ e, r = (some (0, some e), rl.2) ∧ e.Error = str "link failed: " ++ L) ∧
      ∀ c ∈ r.2.calls, c.isQuery = true ∨ c ∈ stageV ++ stageF ++ stageL) ∧
    (rv.1 = some [] → rf.1 = some [] → rl.1 = some [] → rval.1 = some L →
      (∃ e, r = (some (0, some e), rval.2) ∧ e.Error = str "validation failed: " ++ L) ∧
      ∀ c ∈ r.2.calls, c.isQuery = true ∨
        c ∈ stageV ++ stageF ++ stageL ++ [.ValidateProgram program]) := by
  intro w0 program c1 vid rv c2 fid rf rl rval r stageV stageF stageL
  have hLlen : 0 < L.length := List.length_pos.mpr hL
  -- the traces of the four stages
  obtain ⟨e1, he1, hq1⟩ := ivLog_shader_calls d vid gl.COMPILE_STATUS
    (gl.CompileShader d vid (gl.ShaderSource d vid vertexSrcCode c1.2))
  obtain ⟨e2, he2, hq2⟩ := ivLog_shader_calls d fid gl.COMPILE_STATUS
    (gl.CompileShader d fid (gl.ShaderSource d fid fragmentSrcCode c2.2))
  obtain ⟨e3, he3, hq3⟩ := ivLog_program_calls d program gl.LINK_STATUS
    (gl.LinkProgram d program
      (gl.AttachShader d program fid (gl.AttachShader d program vid rf.2)))
  obtain ⟨e4, he4, hq4⟩ := ivLog_program_calls d program gl.VALIDATE_STATUS
    (gl.ValidateProgram d program rl.2)
  have t1 : rv.2.calls = stageV ++ e1 := by
    rw [he1]; simp [gl.CompileShader, gl.ShaderSource, c1, gl.CreateShader, gl.CreateProgram,
      call_calls, w0, stageV, vid]
  have t2 : rf.2.calls = stageV ++ e1 ++ stageF ++ e2 := by
    rw [he2, ← t1]; simp [gl.CompileShader, gl.ShaderSource, c2, gl.CreateShader, call_calls,
      stageF, fid]
  have t3 : rl.2.calls = stageV ++ e1 ++ stageF ++ e2 ++ stageL ++ e3 := by
    rw [he3, ← t2]; simp [gl.LinkProgram, gl.AttachShader, call_calls, stageL]
  have t4 : rval.2.calls
      = stageV ++ e1 ++ stageF ++ e2 ++ stageL ++ e3 ++ [.ValidateProgram program] ++ e4 := by
    rw [he4, ← t3]; simp [gl.ValidateProgram, call_calls]
  refine ⟨?_, ?_, ?_, ?_⟩
  · intro hv
    have hc := compile_of_log d gl.VERTEX_SHADER vertexSrcCode (gl.CreateProgram d w0).2 L hv
    have hr : r = (some (0, some (.wrapError (str "vertex shader compile: " ++ L)
        (.errorString L))), rv.2) := by
      show shaders.CompileBasic d vertexSrcCode fragmentSrcCode w0 = _
      simp only [shaders.CompileBasic]
      rw [hc]
      simp only [hL, if_false, shaders.error.Error]
    refine ⟨⟨_, hr, rfl⟩, ?_⟩
    intro c hc
    rw [hr] at hc
    simp only [t1, List.mem_append] at hc
    rcases hc with hc | hc
    · exact Or.inr hc
    · exact Or.inl (hq1 c hc)
  · intro hv hf
    have hc1 := compile_of_log d gl.VERTEX_SHADER vertexSrcCode (gl.CreateProgram d w0).2 [] hv
    have hc2 := compile_of_log d gl.FRAGMENT_SHADER fragmentSrcCode rv.2 L hf
    have hr : r = (some (0, some (.wrapError (str "fragment shader compile: " ++ L)
        (.errorString L))), rf.2) := by
      show shaders.CompileBasic d vertexSrcCode fragmentSrcCode w0 = _
      simp only [shaders.CompileBasic]
      rw [hc1]
      simp only [if_true]
      rw [hc2]
      simp only [hL, if_false, shaders.error.Error]
    refine ⟨⟨_, hr, rfl⟩, ?_⟩
    intro c hc
    rw [hr] at hc
    simp only [t2, List.mem_append] at hc ⊢
    rcases hc with ((hc | hc) | hc) | hc
    · exact Or.inr (Or.inl hc)
    · exact Or.inl (hq1 c hc)
    · exact Or.inr (Or.inr hc)
    · exact Or.inl (hq2 c hc)
  · intro hv hf hl
    have hc1 := compile_of_log d gl.VERTEX_SHADER vertexSrcCode (gl.CreateProgram d w0).2 [] hv
    have hc2 := compile_of_log d gl.FRAGMENT_SHADER fragmentSrcCode rv.2 [] hf
    have hl2 : (shaders.ivLog (gl.CreateProgram d w0).1 gl.LINK_STATUS (gl.GetProgramiv d)
        (gl.GetProgramInfoLog d) (gl.LinkProgram d (gl.CreateProgram d w0).1
          (gl.AttachShader d (gl.CreateProgram d w0).1
            (gl.CreateShader d gl.FRAGMENT_SHADER rv.2).1
            (gl.AttachShader d (gl.CreateProgram d w0).1
              (gl.CreateShader d gl.VERTEX_SHADER (gl.CreateProgram d w0).2).1 rf.2)))).1
        = some L := hl
    have hr : r = (some (0, some (.errorString (str "link failed: " ++ L))), rl.2) := by
      show shaders.CompileBasic d vertexSrcCode fragmentSrcCode w0 = _
      simp only [shaders.CompileBasic]
      rw [hc1]
      simp only [if_true]
      rw [hc2]
      simp only [if_true]
      rw [hl2]
      simp only [hLlen, gt_iff_lt, if_true]
    refine ⟨⟨_, hr, rfl⟩, ?_⟩
    intro c hc
    rw [hr] at hc
    simp only [t3, List.mem_append] at hc ⊢
    rcases hc with ((((hc | hc) | hc) | hc) | hc) | hc
    · exact Or.inr (Or.inl (Or.inl hc))
    · exact Or.inl (hq1 c hc)
    · exact Or.inr (Or.inl (Or.inr hc))
    · exact Or.inl (hq2 c hc)
    · exact Or.inr (Or.inr hc)
    · exact Or.inl (hq3 c hc)
  · intro hv hf hl hval
    have hc1 := compile_of_log d gl.VERTEX_SHADER vertexSrcCode (gl.CreateProgram d w0).2 [] hv
    have hc2 := compile_of_log d gl.FRAGMENT_SHADER fragmentSrcCode rv.2 [] hf
    have hl2 : (shaders.ivLog (gl.CreateProgram d w0).1 gl.LINK_STATUS (gl.GetProgramiv d)
        (gl.GetProgramInfoLog d) (gl.LinkProgram d (gl.CreateProgram d w0).1
          (gl.AttachShader d (gl.CreateProgram d w0).1
            (gl.CreateShader d gl.FRAGMENT_SHADER rv.2).1
            (gl.AttachShader d (gl.CreateProgram d w0).1
              (gl.CreateShader d gl.VERTEX_SHADER (gl.CreateProgram d w0).2).1 rf.2)))).1
        = some [] := hl
    have hval2 : (shaders.ivLog (gl.CreateProgram d w0).1 gl.VALIDATE_STATUS (gl.GetProgramiv d)
        (gl.GetProgramInfoLog d) (gl.ValidateProgram d (gl.CreateProgram d w0).1 rl.2)).1
        = some L := hval
    have hr : r = (some (0, some (.errorString (str "validation failed: " ++ L))), rval.2) := by
      show shaders.CompileBasic d vertexSrcCode fragmentSrcCode w0 = _
      simp only [shaders.CompileBasic]
      rw [hc1]
      simp only [if_true]
      rw [hc2]
      simp only [if_true]
      rw [hl2]
      simp only [List.length_nil, gt_iff_lt, lt_self_iff_false, if_false]
      rw [hval2]
      simp only [hLlen, gt_iff_lt, if_true]
    refine ⟨⟨_, hr, rfl⟩, ?_⟩
    intro c hc
    rw [hr] at hc
    simp only [t4, List.mem_append] at hc ⊢
    rcases hc with ((((((hc | hc) | hc) | hc) | hc) | hc) | hc) | hc
    · exact Or.inr (Or.inl (Or.inl (Or.inl hc)))
    · exact Or.inl (hq1 c hc)
    · exact Or.inr (Or.inl (Or.inl (Or.inr hc)))
    · exact Or.inl (hq2 c hc)
    · exact Or.inr (Or.inl (Or.inr hc))
    · exact Or.inl (hq3 c hc)
    · exact Or.inr (Or.inr hc)
    · exact Or.inl (hq4 c hc)

/-- Witness of C2: against the script in which every status is `TRUE`, `CompileBasic` returns
program 1 and a nil error. -/
theorem CompileBasic_success_witness :
    shaders.CompileBasic (scriptDriver allSucceed) (str "v") (str "f")
        (reach (scriptDriver allSucceed) () [] [])
      = (some (1, none), reach (scriptDriver allSucceed) () []
          [.CreateProgram, .CreateShader gl.VERTEX_SHADER, .ShaderSource 2 (str "v"),
            .CompileShader 2, .GetShaderiv 2 gl.COMPILE_STATUS,
            .CreateShader gl.FRAGMENT_SHADER, .ShaderSource 3 (str "f"), .CompileShader 3,
            .GetShaderiv 3 gl.COMPILE_STATUS, .AttachShader 1 2, .AttachShader 1 3,
            .LinkProgram 1, .GetProgramiv 1 gl.LINK_STATUS, .ValidateProgram 1,
            .GetProgramiv 1 gl.VALIDATE_STATUS, .DeleteShader 2, .DeleteShader 3]) :=
  CompileBasic_success (scriptDriver allSucceed) (str "v") (str "f") () [] 1 2 3 _ _ _ _
    rfl rfl rfl (by decide) rfl rfl (by decide) rfl (by decide) rfl (by decide)

/-- Witness of C3: against the script whose link fails with the log "AB", the error message is
"link failed: AB" and `ValidateProgram` is not among the calls issued. -/
theorem CompileBasic_first_failing_stage_witness :
    ∃ e w, shaders.CompileBasic (scriptDriver linkFails) (str "v") (str "f") ⟨(), []⟩
        = (some (0, some e), w) ∧
      e.Error = str "link failed: AB" ∧ Call.ValidateProgram 1 ∉ w.calls := by
  obtain ⟨⟨e, hr, he⟩, hcalls⟩ :=
    (CompileBasic_first_failing_stage (scriptDriver linkFails) (str "v") (str "f") () [65, 66]
      (by decide)).2.2.1 (by decide) (by decide) (by decide)
  refine ⟨e, _, hr, ?_, ?_⟩
  · rw [he]; decide
  · intro hmem
    have h := hcalls _ (by rw [hr]; exact hmem)
    revert h
    decide

/-- C1 (failing input): the driver reports `COMPILE_STATUS = FALSE` for the vertex shader, in
the state in which `CompileBasic` asks, and an `INFO_LOG_LENGTH` of 1; `CompileBasic` returns
program 1 with a nil error. -/
theorem CompileBasic_failed_compile_nil_error :
    (gl.GetShaderiv (scriptDriver vertexFailsSilently) 2 gl.COMPILE_STATUS
        (reach (scriptDriver vertexFailsSilently) () []
          [.CreateProgram, .CreateShader gl.VERTEX_SHADER, .ShaderSource 2 (str "v"),
            .CompileShader 2])).1 = gl.FALSE ∧
    (gl.GetShaderiv (scriptDriver vertexFailsSilently) 2 gl.INFO_LOG_LENGTH
        (reach (scriptDriver vertexFailsSilently) () []
          [.CreateProgram, .CreateShader gl.VERTEX_SHADER, .ShaderSource 2 (str "v"),
            .CompileShader 2, .GetShaderiv 2 gl.COMPILE_STATUS])).1 = 1 ∧
    (shaders.CompileBasic (scriptDriver vertexFailsSilently) (str "v") (str "f")
        (reach (scriptDriver vertexFailsSilently) () [] [])).1 = some (1, none) ∧
    (shaders.CompileBasic (scriptDriver vertexFailsSilently) (str "v") (str "f")
        (reach (scriptDriver vertexFailsSilently) () [] [])).2.calls
      = [.CreateProgram, .CreateShader gl.VERTEX_SHADER, .ShaderSource 2 (str "v"),
          .CompileShader 2, .GetShaderiv 2 gl.COMPILE_STATUS, .GetShaderiv 2 gl.INFO_LOG_LENGTH,
          .GetShaderInfoLog 2 1, .CreateShader gl.FRAGMENT_SHADER, .ShaderSource 3 (str "f"),
          .CompileShader 3, .GetShaderiv 3 gl.COMPILE_STATUS, .AttachShader 1 2,
          .AttachShader 1 3, .LinkProgram 1, .GetProgramiv 1 gl.LINK_STATUS,
          .ValidateProgram 1, .GetProgramiv 1 gl.VALIDATE_STATUS, .DeleteShader 2,
          .DeleteShader 3] := by
  decide

/-- C7 (failing input): for a null-terminated layout of type `UNSIGNED_BYTE` at offset 8,
`AddAttribute` issues `gl.VertexAttribPointerWithOffset` with the type `FLOAT` and the
offset 0. -/
theorem AddAttribute_ignores_type_and_offset :
    NullTerminated colorLayout.Name ∧
    colorLayout.Type' ≠ gl.FLOAT ∧ colorLayout.Offset ≠ 0 ∧
    (Example005.VertexArray.AddAttribute (queueDriver true) 0 ⟨1⟩ ⟨2⟩ colorLayout
        ⟨[], []⟩).map (fun r => r.2.calls)
      = some [.BindBuffer gl.ARRAY_BUFFER 2, .GetAttribLocation 3 (str "color\x00"),
          .EnableVertexAttribArray 0,
          .VertexAttribPointerWithOffset 0 4 gl.FLOAT true 12 0, .GetError] := by
  decide
